import Mathlib

/-!
Verification of the Medivault summarization core.

The Python services (`services/ai_summarizer.py`, `services/emergency_ai.py`,
`services/embeddings_service.py` and the emergency route of `app.py`) are
shallowly embedded below.  Python strings are modelled as `List Char`; the
SQLite tables touched by the emergency and search services are modelled as
lists of rows in insertion order; a storage operation that may raise is given
an explicit boolean failure flag whose `true` branch mirrors the Python
`except` arm.  Wall-clock fields (`response_time`, `last_updated` as a
datetime of "now") are not modelled.
-/

/-- Python strings, modelled as lists of unicode characters. -/
abbrev Text := List Char

/-- Text of a Lean string literal. -/
def txt (s : String) : Text := s.data

/-- Python `str.lower()` (per-character). -/
def lowerT (t : Text) : Text := t.map Char.toLower

/-- `leadsWith p t`: `p` occurs at the very start of `t`. -/
def leadsWith : Text → Text → Bool
  | [], _ => true
  | _ :: _, [] => false
  | a :: as, b :: bs => a = b && leadsWith as bs

/-- Python `p in t`: substring occurrence test. -/
def isSubstr (p : Text) : Text → Bool
  | [] => leadsWith p []
  | c :: rest => leadsWith p (c :: rest) || isSubstr p rest

/-- The Python whitespace class used by `str.split`, `str.strip` and regex `\s`. -/
def isSpaceC (c : Char) : Bool :=
  c = ' ' || c = '\t' || c = '\n' || c = '\r' || c = '\x0b' || c = '\x0c'

/-- Python `str.strip()`. -/
def stripT (t : Text) : Text :=
  ((t.dropWhile isSpaceC).reverse.dropWhile isSpaceC).reverse

/-- Python `str.split(sep)` for a one-character separator (keeps empty pieces). -/
def splitOnC (sep : Char) (t : Text) : List Text :=
  t.foldr
    (fun c acc =>
      if c = sep then [] :: acc
      else
        match acc with
        | [] => [[c]]
        | a :: as => (c :: a) :: as)
    [[]]

/-- Python `str.split()` with no argument: split on whitespace runs, no empties. -/
def splitWs (t : Text) : List Text :=
  (t.foldr
    (fun c acc =>
      if isSpaceC c then [] :: acc
      else
        match acc with
        | [] => [[c]]
        | a :: as => (c :: a) :: as)
    [[]]).filter (fun w => !w.isEmpty)

/-- Helper for `titleT`: the boolean records whether the previous character
    was alphabetic. -/
def titleAux : Bool → Text → Text
  | _, [] => []
  | prevAlpha, c :: rest =>
    (if c.isAlpha then (if prevAlpha then c.toLower else c.toUpper) else c) ::
      titleAux c.isAlpha rest

/-- Python `str.title()`: uppercase each alphabetic character that follows a
    non-alphabetic one, lowercase the remaining alphabetic characters. -/
def titleT (t : Text) : Text := titleAux false t

/-- Python `sep.join(l)`. -/
def joinT (sep : Text) : List Text → Text
  | [] => []
  | [s] => s
  | s :: t :: rest => s ++ sep ++ joinT sep (t :: rest)

/-- One step of a stable descending insertion sort by `key` (the model of
    Python's stable `list.sort(key=..., reverse=True)`). -/
def insertD {α β : Type} [LinearOrder β] (key : α → β) (x : α) : List α → List α
  | [] => [x]
  | y :: ys => if key y ≤ key x then x :: y :: ys else y :: insertD key x ys

/-- Stable descending sort by `key`. -/
def sortD {α β : Type} [LinearOrder β] (key : α → β) : List α → List α
  | [] => []
  | x :: xs => insertD key x (sortD key xs)

namespace MedicalSummarizer

/-- The allergen lexicon of `MedicalSummarizer._extract_allergies`. -/
def common_allergens : List Text :=
  [txt "penicillin", txt "peanut", txt "peanuts", txt "sulfa", txt "sulfonamide",
   txt "latex", txt "aspirin", txt "iodine", txt "egg", txt "eggs", txt "shellfish",
   txt "tree nut", txt "soy", txt "wheat", txt "milk", txt "fish"]

/-- `MedicalSummarizer._extract_allergies`: case-insensitive lexicon substring
    scan over the whole text, title-cased, then the `list(set(...))` dedup
    (set semantics; the unspecified Python set order is modelled as
    first-occurrence order). -/
def extract_allergies (text : Text) : List Text :=
  let text_lower := lowerT text
  (((common_allergens.filter (fun a => isSubstr a text_lower)).map titleT)).dedup

/-- The medication lexicon of `MedicalSummarizer._extract_medications_simple`. -/
def common_meds : List Text :=
  [txt "metformin", txt "insulin", txt "aspirin", txt "atorvastatin",
   txt "lisinopril", txt "amlodipine", txt "omeprazole", txt "levothyroxine",
   txt "albuterol", txt "losartan", txt "gabapentin", txt "hydrochlorothiazide",
   txt "simvastatin", txt "pravastatin", txt "rosuvastatin",
   txt "azithromycin", txt "amoxicillin", txt "ciprofloxacin",
   txt "paracetamol", txt "ibuprofen", txt "acetaminophen"]

/-- `MedicalSummarizer._extract_medications_simple`: lexicon substring scan,
    title-cased, dedup, capped at 5. -/
def extract_medications_simple (text : Text) : List Text :=
  let text_lower := lowerT text
  ((((common_meds.filter (fun m => isSubstr m text_lower)).map titleT)).dedup).take 5

/-- Unit alternatives of the dosage regex `(\d+)\s*(mg|milligram|g|gram|ml|unit)`,
    in alternation order. -/
def dose_units : List Text :=
  [txt "mg", txt "milligram", txt "g", txt "gram", txt "ml", txt "unit"]

/-- The dosage regex tried at the start of `t`: a maximal nonempty digit run,
    a maximal whitespace run, then the first matching unit alternative; the
    whole match (`group(0)`) is returned.  (The regex has no further pieces, so
    backtracking in `\d+`/`\s*` can never produce a match the greedy run
    misses.) -/
def matchDoseAt (t : Text) : Option Text :=
  let ds := t.takeWhile Char.isDigit
  if ds.isEmpty then none
  else
    let r1 := t.dropWhile Char.isDigit
    let ws := r1.takeWhile isSpaceC
    let r2 := r1.dropWhile isSpaceC
    match dose_units.find? (fun u => leadsWith u r2) with
    | some u => some (ds ++ ws ++ u)
    | none => none

/-- `re.search` for the dosage pattern: leftmost matching position wins. -/
def searchDose : Text → Option Text
  | [] => none
  | c :: rest =>
    match matchDoseAt (c :: rest) with
    | some m => some m
    | none => searchDose rest

/-- One entry of `_extract_medications_detailed`. -/
structure MedEntry where
  name : Text
  dose : Option Text
  deriving DecidableEq

/-- The medication lexicon of `MedicalSummarizer._extract_medications_detailed`. -/
def med_keywords : List Text :=
  [txt "metformin", txt "insulin", txt "aspirin", txt "atorvastatin",
   txt "paracetamol", txt "ibuprofen", txt "azithromycin"]

/-- `MedicalSummarizer._extract_medications_detailed`: line-by-line scan; for
    each line and each lexicon medication contained in its lowered form, record
    the title-cased name and the first dosage expression of the lowered line
    (if any); capped at 5, duplicates kept. -/
def extract_medications_detailed (text : Text) : List MedEntry :=
  ((splitOnC '\n' text).flatMap (fun line =>
    let line_lower := lowerT line
    (med_keywords.filter (fun m => isSubstr m line_lower)).map
      (fun m => { name := titleT m, dose := searchDose line_lower }))).take 5

/-- The priority-ordered condition lexicon of `MedicalSummarizer._extract_diagnosis`. -/
def common_conditions : List Text :=
  [txt "type 2 diabetes", txt "type 1 diabetes", txt "diabetes mellitus", txt "diabetes",
   txt "hypertension", txt "high blood pressure",
   txt "asthma", txt "copd", txt "chronic obstructive",
   txt "heart disease", txt "coronary artery",
   txt "kidney disease", txt "renal failure",
   txt "upper respiratory tract infection", txt "respiratory infection",
   txt "urinary tract infection", txt "uti",
   txt "pneumonia", txt "bronchitis",
   txt "gastritis", txt "gerd",
   txt "hypothyroidism", txt "hyperthyroidism"]

/-- `MedicalSummarizer._extract_diagnosis`: the Python loop appends the first
    lexicon condition contained in the lowered text and breaks, so the result
    is the first match in lexicon order, title-cased. -/
def extract_diagnosis (text : Text) : Option Text :=
  let text_lower := lowerT text
  (common_conditions.find? (fun c => isSubstr c text_lower)).map titleT

/-- Unit alternatives `(week|day|month)` of the follow-up regexes. -/
def fu_units : List Text := [txt "week", txt "day", txt "month"]

/-- Match a literal at the start of `t`, returning the remainder. -/
def litM (s t : Text) : Option Text :=
  if leadsWith s t then some (t.drop s.length) else none

/-- Match the character class `[- ]`. -/
def dashSpaceM : Text → Option Text
  | c :: r => if c = '-' || c = ' ' then some r else none
  | [] => none

/-- Match `(\d+)`: a maximal nonempty digit run. -/
def digitsM (t : Text) : Option (Text × Text) :=
  let ds := t.takeWhile Char.isDigit
  if ds.isEmpty then none else some (ds, t.dropWhile Char.isDigit)

/-- Match `(week|day|month)` in alternation order (the alternatives share no
    common viable position, so first-match commitment is faithful). -/
def unitM (t : Text) : Option Text := fu_units.find? (fun u => leadsWith u t)

/-- `follow[- ]up in (\d+) (week|day|month)` tried at the start of `t`;
    returns the two capture groups. -/
def matchFU1At (t : Text) : Option (Text × Text) :=
  (litM (txt "follow") t).bind fun r1 =>
  (dashSpaceM r1).bind fun r2 =>
  (litM (txt "up in ") r2).bind fun r3 =>
  (digitsM r3).bind fun dr =>
  (litM (txt " ") dr.2).bind fun r4 =>
  (unitM r4).map fun u => (dr.1, u)

/-- `(\d+) (week|day|month) follow[- ]up` tried at the start of `t`. -/
def matchFU2At (t : Text) : Option (Text × Text) :=
  (digitsM t).bind fun dr =>
  (litM (txt " ") dr.2).bind fun r1 =>
  (unitM r1).bind fun u =>
  (litM u r1).bind fun r2 =>
  (litM (txt " follow") r2).bind fun r3 =>
  (dashSpaceM r3).bind fun r4 =>
  (litM (txt "up") r4).map fun _ => (dr.1, u)

/-- `return in (\d+) (week|day|month)` tried at the start of `t`. -/
def matchFU3At (t : Text) : Option (Text × Text) :=
  (litM (txt "return in ") t).bind fun r1 =>
  (digitsM r1).bind fun dr =>
  (litM (txt " ") dr.2).bind fun r2 =>
  (unitM r2).map fun u => (dr.1, u)

/-- `see you in (\d+) (week|day|month)` tried at the start of `t`. -/
def matchFU4At (t : Text) : Option (Text × Text) :=
  (litM (txt "see you in ") t).bind fun r1 =>
  (digitsM r1).bind fun dr =>
  (litM (txt " ") dr.2).bind fun r2 =>
  (unitM r2).map fun u => (dr.1, u)

/-- `re.search` for a follow-up pattern: leftmost matching position wins
    (the end-of-text position is tried as well, as `re.search` does). -/
def searchPat (pat : Text → Option (Text × Text)) : Text → Option (Text × Text)
  | [] => pat []
  | c :: rest =>
    match pat (c :: rest) with
    | some m => some m
    | none => searchPat pat rest

/-- `MedicalSummarizer._extract_follow_up`: the four regexes tried in order on
    the lowered text; the first match is rendered `"{n} {unit}(s)"`. -/
def extract_follow_up (text : Text) : Option Text :=
  let tl := lowerT text
  ([matchFU1At, matchFU2At, matchFU3At, matchFU4At].findSome?
      (fun p => searchPat p tl)).map
    (fun m => m.1 ++ txt " " ++ m.2 ++ txt "(s)")

/-- The allergies bullet of `_extract_emergency_info`. -/
def allergyLine (text : Text) : Text :=
  if (extract_allergies text).isEmpty then txt "• Allergies: Not documented"
  else txt "• Allergies: " ++ joinT (txt ", ") (extract_allergies text)

/-- The medications bullet of `_extract_emergency_info` (top 3, dose appended
    when known). -/
def medsLine (text : Text) : Text :=
  if (extract_medications_detailed text).isEmpty then
    txt "• Current Medications: Not documented"
  else txt "• Current Medications: " ++
    joinT (txt ", ") (((extract_medications_detailed text).take 3).map
      (fun m =>
        match m.dose with
        | some d => m.name ++ txt " " ++ d
        | none => m.name))

/-- The chronic-conditions bullet of `_extract_emergency_info`. -/
def condLine (text : Text) : Text :=
  match extract_diagnosis text with
  | some d => txt "• Chronic Conditions: " ++ d
  | none => txt "• Chronic Conditions: Not documented"

/-- The three bullet lines assembled by `MedicalSummarizer._extract_emergency_info`,
    in their fixed order. -/
def emergencyLines (text : Text) : List Text :=
  [allergyLine text, medsLine text, condLine text]

/-- `MedicalSummarizer._extract_emergency_info`: `'\n'.join(emergency_info[:3])`. -/
def extract_emergency_info (text : Text) : Text :=
  joinT (txt "\n") ((emergencyLines text).take 3)

/-- The fact fragments of `_create_patient_friendly_summary`, in its fixed
    append order: diagnosis, medications, allergies (warning marker), follow-up. -/
def summaryParts (text : Text) : List Text :=
  (match extract_diagnosis text with
   | some d => [txt "Diagnosis: " ++ d ++ txt "."]
   | none => []) ++
  (let meds := extract_medications_simple text
   if meds.isEmpty then []
   else [txt "Medications prescribed: " ++ joinT (txt ", ") meds ++ txt "."]) ++
  (let alls := extract_allergies text
   if alls.isEmpty then []
   else [txt "⚠️ Allergies noted: " ++ joinT (txt ", ") alls ++ txt "."]) ++
  (match extract_follow_up text with
   | some f => [txt "Follow-up: " ++ f ++ txt "."]
   | none => [])

/-- The fallback of `_create_patient_friendly_summary`: of the first three
    `'.'`-split sentences, those whose stripped form is longer than 20
    characters, re-terminated with a period. -/
def fallbackParts (text : Text) : List Text :=
  ((splitOnC '.' text).take 3).filterMap
    (fun s => if 20 < (stripT s).length then some (stripT s ++ txt ".") else none)

/-- `MedicalSummarizer._create_patient_friendly_summary`. -/
def create_patient_friendly_summary (text : Text) : Text :=
  let parts := summaryParts text
  let parts := if parts.isEmpty then fallbackParts text else parts
  joinT (txt " ") (parts.take 5)

/-- The clinical keyword list of `_create_doctor_summary`. -/
def clinical_keywords : List Text :=
  [txt "diagnosis", txt "diagnos", txt "prescription", txt "prescribed",
   txt "medication", txt "medicat", txt "dosage", txt "dose",
   txt "test", txt "lab", txt "result", txt "blood", txt "pressure",
   txt "temperature", txt "hba1c", txt "glucose", txt "cholesterol"]

/-- `MedicalSummarizer._create_doctor_summary`. -/
def create_doctor_summary (text : Text) : Text :=
  let important := (splitOnC '\n' text).filterMap (fun line =>
    let line_clean := stripT line
    if line_clean.length < 10 then none
    else if clinical_keywords.any (fun k => isSubstr k (lowerT line_clean)) then
      some line_clean
    else none)
  if important.isEmpty then stripT (text.take 400) ++ txt "..."
  else joinT (txt " | ") (important.take 8)

/-- The (category, trigger substring) table of `_extract_key_findings`. -/
def finding_keywords : List (Text × Text) :=
  [(txt "diagnosis", txt "diagnos"), (txt "prescription", txt "prescri"),
   (txt "allergy", txt "allerg"), (txt "lab test", txt "test ordered"),
   (txt "vital signs", txt "blood pressure"), (txt "follow-up", txt "follow-up")]

/-- `MedicalSummarizer._extract_key_findings`. -/
def extract_key_findings (text : Text) : List Text :=
  let tl := lowerT text
  let findings :=
    (finding_keywords.filter (fun fk => isSubstr fk.2 tl)).map (fun fk => titleT fk.1)
  if (findings.take 5).isEmpty then [txt "Medical document processed"]
  else findings.take 5

/-- Signal 1 of `_calculate_confidence`: `'diagnos' in text_lower`. -/
def hasDiagnosisKw (text : Text) : Bool := isSubstr (txt "diagnos") (lowerT text)

/-- Signal 2 of `_calculate_confidence`: `'medicat' in text_lower or 'prescri' in text_lower`. -/
def hasMedicationKw (text : Text) : Bool :=
  isSubstr (txt "medicat") (lowerT text) || isSubstr (txt "prescri") (lowerT text)

/-- Signal 3 of `_calculate_confidence`: `'patient' in text_lower or 'health id' in text_lower`. -/
def hasPatientKw (text : Text) : Bool :=
  isSubstr (txt "patient") (lowerT text) || isSubstr (txt "health id") (lowerT text)

/-- The signal count of `_calculate_confidence`. -/
def confScore (text : Text) : Nat :=
  (if hasDiagnosisKw text then 1 else 0) +
  (if hasMedicationKw text then 1 else 0) +
  (if hasPatientKw text then 1 else 0)

/-- `MedicalSummarizer._calculate_confidence`: score 3 → High, 2 → Medium,
    otherwise Low. -/
def calculate_confidence (text : Text) : Text :=
  if 3 ≤ confScore text then txt "High"
  else if 2 ≤ confScore text then txt "Medium"
  else txt "Low"

/-- The summary record returned by `generate_summaries`. -/
structure Summaries where
  patient_summary : Text
  doctor_summary : Text
  emergency_summary : Text
  confidence : Text
  key_findings : List Text
  document_type : Text
  deriving DecidableEq

/-- `MedicalSummarizer.generate_summaries`.  The defensive `except` arm
    (`_fallback_summary`) is unreachable here since every helper is total. -/
def generate_summaries (document_text : Text) (document_type : Text) : Summaries :=
  if document_text.isEmpty || (stripT document_text).length < 20 then
    { patient_summary := txt "Document text is too short to summarize.",
      doctor_summary := txt "Insufficient data for clinical summary.",
      emergency_summary := txt "• No critical information available",
      confidence := txt "Low",
      key_findings := [],
      document_type := document_type }
  else
    { patient_summary := create_patient_friendly_summary document_text,
      doctor_summary := create_doctor_summary document_text,
      emergency_summary := extract_emergency_info document_text,
      confidence := calculate_confidence document_text,
      key_findings := extract_key_findings document_text,
      document_type := document_type }

end MedicalSummarizer

namespace EmbeddingsService

/-- A row of the `document_embeddings` table. -/
structure ChunkRow where
  id : Nat
  record_id : Nat
  health_id : Text
  text_chunk : Text
  deriving DecidableEq

/-- A result dictionary of `semantic_search`. -/
structure SearchResult where
  embedding_id : Nat
  record_id : Nat
  text : Text
  similarity : ℚ
  deriving DecidableEq

/-- `set(query.lower().split())`: the distinct lowercase words of the query
    (the unspecified Python set order is modelled as first-occurrence order). -/
def queryWords (query : Text) : List Text := (splitWs (lowerT query)).dedup

/-- The similarity of one stored chunk: matched distinct query words over the
    query word-set size, `0` when the query has no words. -/
def chunkSim (query_words : List Text) (text : Text) : ℚ :=
  let text_lower := lowerT text
  let matchCount := query_words.countP (fun w => isSubstr w text_lower)
  if query_words.isEmpty then 0 else (matchCount : ℚ) / (query_words.length : ℚ)

/-- The result dictionary built for one chunk row. -/
def scoreChunk (query_words : List Text) (row : ChunkRow) : SearchResult :=
  { embedding_id := row.id, record_id := row.record_id, text := row.text_chunk,
    similarity := chunkSim query_words row.text_chunk }

/-- `EmbeddingsService.semantic_search`: fetch the patient's rows, score each,
    stable-sort descending by similarity, truncate to `top_k`.  Zero stored
    chunks give `[]` (and the `except` arm for a failing read, not modelled
    here, returns `[]` as well). -/
def semantic_search (table : List ChunkRow) (health_id : Text) (query : Text)
    (top_k : Nat) : List SearchResult :=
  let documents := table.filter (fun r => decide (r.health_id = health_id))
  if documents.isEmpty then []
  else
    let query_words := queryWords query
    let results := documents.map (scoreChunk query_words)
    (sortD (fun r => r.similarity) results).take top_k

end EmbeddingsService

namespace EmergencyAI

/-- A row of the `ai_summaries` table. -/
structure SummaryRow where
  record_id : Nat
  health_id : Text
  patient_summary : Text
  doctor_summary : Text
  emergency_summary : Text
  confidence : Text
  generated_at : Nat
  deriving DecidableEq

/-- A row of the `medical_records` table. -/
structure MedicalRecordRow where
  id : Nat
  health_id : Text
  document_type : Text
  upload_date : Nat
  deriving DecidableEq

/-- A row of the `emergency_logs` table. -/
structure LogRow where
  health_id : Text
  accessed_by : Text
  ip_address : Text
  deriving DecidableEq

/-- The SQLite tables touched by the emergency service, in insertion order. -/
structure DB where
  ai_summaries : List SummaryRow
  medical_records : List MedicalRecordRow
  emergency_logs : List LogRow
  deriving DecidableEq

/-- The dictionary returned by `_get_cached_summary` on a hit. -/
structure Cached where
  emergency_summary : Text
  confidence : Text
  last_updated : Nat
  source_count : Nat
  deriving DecidableEq

/-- `EmergencyAI._get_cached_summary`.  The SQL's `GROUP BY health_id`
    collapses all of the patient's `ai_summaries` rows into a single group
    BEFORE `ORDER BY generated_at DESC LIMIT 1` applies, making the ordering
    and the limit no-ops on the one grouped row; `COUNT(*)` is the group size,
    and SQLite fills the bare columns `emergency_summary, confidence,
    generated_at` from its scan-order representative of the group — observed
    behaviour: the FIRST row in table (insertion) order, not necessarily the
    most recently generated row.  `fail` models the connection raising: the
    `except` arm returns `None`. -/
def get_cached_summary (db : DB) (fail : Bool) (health_id : Text) : Option Cached :=
  if fail then none
  else
    let rows := db.ai_summaries.filter (fun r => decide (r.health_id = health_id))
    match rows.head? with
    | some r =>
      some { emergency_summary := r.emergency_summary,
             confidence := r.confidence,
             last_updated := r.generated_at,
             source_count := rows.length }
    | none => none

/-- `EmergencyAI._get_patient_records`: join `ai_summaries` with
    `medical_records` on `record_id = id`, newest upload first, each rendered
    `"[{doc_type}]\n{doctor_summary}"`.  `fail` models the connection raising:
    the `except` arm returns `[]`. -/
def get_patient_records (db : DB) (fail : Bool) (health_id : Text) : List Text :=
  if fail then []
  else
    let joined := (db.ai_summaries.filter
        (fun s => decide (s.health_id = health_id))).flatMap
      (fun s => (db.medical_records.filter (fun m => decide (m.id = s.record_id))).map
        (fun m => (s, m)))
    (sortD (fun sm => sm.2.upload_date) joined).map
      (fun sm => txt "[" ++ sm.2.document_type ++ txt "]\n" ++ sm.1.doctor_summary)

/-- The gating keywords of `EmergencyAI._extract_allergies`. -/
def allergy_keywords : List Text := [txt "allerg", txt "reaction to", txt "sensitive to"]

/-- The allergen lexicon of `EmergencyAI._extract_allergies`. -/
def common_allergens : List Text :=
  [txt "penicillin", txt "peanut", txt "sulfa", txt "latex",
   txt "aspirin", txt "iodine", txt "egg", txt "shellfish"]

/-- `EmergencyAI._extract_allergies`: keyword-gated line scan over the (already
    lowered) combined text; duplicates kept; joined with `", "`. -/
def extract_allergies (text : Text) : Option Text :=
  let allergies := (splitOnC '\n' text).flatMap (fun line =>
    if allergy_keywords.any (fun k => isSubstr k line) then
      (common_allergens.filter (fun a => isSubstr a line)).map titleT
    else [])
  if allergies.isEmpty then none else some (joinT (txt ", ") allergies)

/-- The gating keywords of `EmergencyAI._extract_medications`. -/
def med_keywords : List Text :=
  [txt "medicat", txt "prescri", txt "taking", txt "tablet", txt "mg"]

/-- The medication lexicon of `EmergencyAI._extract_medications`. -/
def common_meds : List Text :=
  [txt "metformin", txt "insulin", txt "aspirin", txt "atorvastatin",
   txt "lisinopril", txt "amlodipine", txt "omeprazole"]

/-- The regex `\d+\s*mg` tried at the start of `t` (whole match returned). -/
def matchMgAt (t : Text) : Option Text :=
  let ds := t.takeWhile Char.isDigit
  if ds.isEmpty then none
  else
    let r1 := t.dropWhile Char.isDigit
    let ws := r1.takeWhile isSpaceC
    let r2 := r1.dropWhile isSpaceC
    if leadsWith (txt "mg") r2 then some (ds ++ ws ++ txt "mg") else none

/-- `re.search` for `\d+\s*mg`: leftmost match. -/
def searchMg : Text → Option Text
  | [] => none
  | c :: rest =>
    match matchMgAt (c :: rest) with
    | some m => some m
    | none => searchMg rest

/-- `EmergencyAI._extract_dosage`. -/
def extract_dosage (line : Text) : Option Text := searchMg (lowerT line)

/-- `EmergencyAI._extract_medications`: keyword-gated line scan with dosage,
    top 3, joined with `", "`. -/
def extract_medications (text : Text) : Option Text :=
  let medications := (splitOnC '\n' text).flatMap (fun line =>
    if med_keywords.any (fun k => isSubstr k line) then
      (common_meds.filter (fun m => isSubstr m line)).map (fun m =>
        match extract_dosage line with
        | some d => titleT m ++ txt " " ++ d
        | none => titleT m)
    else [])
  if medications.isEmpty then none else some (joinT (txt ", ") (medications.take 3))

/-- The gating keywords of `EmergencyAI._extract_diagnoses`. -/
def diag_keywords : List Text := [txt "diagnos", txt "condition", txt "disease"]

/-- The condition lexicon of `EmergencyAI._extract_diagnoses`. -/
def common_conditions : List Text :=
  [txt "diabetes", txt "hypertension", txt "asthma", txt "copd",
   txt "heart disease", txt "kidney disease", txt "cancer"]

/-- `EmergencyAI._extract_diagnoses`: keyword-gated line scan, top 3. -/
def extract_diagnoses (text : Text) : Option Text :=
  let diagnoses := (splitOnC '\n' text).flatMap (fun line =>
    if diag_keywords.any (fun k => isSubstr k line) then
      (common_conditions.filter (fun c => isSubstr c line)).map titleT
    else [])
  if diagnoses.isEmpty then none else some (joinT (txt ", ") (diagnoses.take 3))

/-- The result of `_generate_emergency_summary_fast`. -/
structure FastSummary where
  text : Text
  confidence : Text
  deriving DecidableEq

/-- `EmergencyAI._generate_emergency_summary_fast`: extract from the lowered
    `'\n\n'`-joined records; three fixed bullet lines; confidence from the
    count of lines not containing `"Not documented"`. -/
def generate_emergency_summary_fast (medical_records : List Text) : FastSummary :=
  let combined_text := lowerT (joinT (txt "\n\n") medical_records)
  let emergency_info :=
    [ match extract_allergies combined_text with
      | some a => txt "• Allergies: " ++ a
      | none => txt "• Allergies: Not documented",
      match extract_medications combined_text with
      | some m => txt "• Current Medications: " ++ m
      | none => txt "• Current Medications: Not documented",
      match extract_diagnoses combined_text with
      | some d => txt "• Chronic Conditions: " ++ d
      | none => txt "• Chronic Conditions: Not documented" ]
  let documented_count :=
    emergency_info.countP (fun info => !isSubstr (txt "Not documented") info)
  { text := joinT (txt "\n") emergency_info,
    confidence :=
      if 2 ≤ documented_count then txt "High"
      else if documented_count = 1 then txt "Medium"
      else txt "Low" }

/-- The emergency brief returned by `get_emergency_summary` (wall-clock fields
    `last_updated` and `response_time` are not modelled). -/
structure Brief where
  success : Bool
  health_id : Text
  emergency_summary : Text
  confidence : Text
  source_count : Nat
  cached : Bool
  deriving DecidableEq

/-- The literal fallback text of the no-records brief. -/
def noRecordsText : Text :=
  txt "• No medical records found\n• Patient data not available\n• Contact patient or family"

/-- `EmergencyAI.get_emergency_summary`: cache first, then re-derivation from
    all records, then the no-records fallback.  Every path returns a `Brief`;
    nothing raises.  `cacheFail` / `recordsFail` model the two storage reads
    raising (each swallowed inside its helper). -/
def get_emergency_summary (db : DB) (cacheFail recordsFail : Bool)
    (health_id : Text) : Brief :=
  match get_cached_summary db cacheFail health_id with
  | some c =>
    { success := true, health_id := health_id,
      emergency_summary := c.emergency_summary, confidence := c.confidence,
      source_count := c.source_count, cached := true }
  | none =>
    let medical_records := get_patient_records db recordsFail health_id
    if medical_records.isEmpty then
      { success := false, health_id := health_id,
        emergency_summary := noRecordsText,
        confidence := txt "Low", source_count := 0, cached := false }
    else
      let summary := generate_emergency_summary_fast medical_records
      { success := true, health_id := health_id,
        emergency_summary := summary.text, confidence := summary.confidence,
        source_count := medical_records.length, cached := false }

/-- `EmergencyAI.log_emergency_access`: append one `emergency_logs` row and
    report `true`; on a storage failure (`fail`) the `except` arm reports
    `false` and the table is unchanged — nothing propagates. -/
def log_emergency_access (db : DB) (fail : Bool)
    (health_id accessed_by ip_address : Text) : Bool × DB :=
  if fail then (false, db)
  else
    (true,
     { db with emergency_logs := db.emergency_logs ++
         [{ health_id := health_id, accessed_by := accessed_by,
            ip_address := ip_address }] })

end EmergencyAI

namespace App

/-- The emergency-mode route body of `app.py`: compute the brief, then always
    call `log_emergency_access` with `session.get('user_id', 'ANONYMOUS')` and
    the requester's address; the brief is rendered regardless of the log
    call's outcome.  Returns (brief, log result, updated database). -/
def emergency_mode (db : EmergencyAI.DB) (cacheFail recordsFail logFail : Bool)
    (health_id : Text) (session_user : Option Text) (remote_addr : Text) :
    EmergencyAI.Brief × Bool × EmergencyAI.DB :=
  let result := EmergencyAI.get_emergency_summary db cacheFail recordsFail health_id
  let logged := EmergencyAI.log_emergency_access db logFail health_id
    (session_user.getD (txt "ANONYMOUS")) remote_addr
  (result, logged.1, logged.2)

end App

/-! ### Generic helper lemmas -/

lemma leadsWith_append (p r : Text) : leadsWith p (p ++ r) = true := by
  induction p with
  | nil => rfl
  | cons c cs ih => simp [leadsWith, ih]

lemma leadsWith_mem {p t : Text} (h : leadsWith p t = true) : ∀ c ∈ p, c ∈ t := by
  induction p generalizing t with
  | nil => intro c hc; cases hc
  | cons a as ih =>
    cases t with
    | nil => simp [leadsWith] at h
    | cons b bs =>
      simp only [leadsWith, Bool.and_eq_true, decide_eq_true_eq] at h
      intro c hc
      rcases List.mem_cons.mp hc with rfl | hc2
      · exact h.1 ▸ List.mem_cons_self _ _
      · exact List.mem_cons_of_mem _ (ih h.2 c hc2)

lemma mem_of_takeWhile {α : Type} {p : α → Bool} {l : List α} {c : α}
    (h : c ∈ l.takeWhile p) : c ∈ l := by
  induction l with
  | nil => simp [List.takeWhile] at h
  | cons a as ih =>
    rw [List.takeWhile] at h
    by_cases hp : p a
    · rw [hp] at h
      rcases List.mem_cons.mp h with rfl | h2
      · exact List.mem_cons_self _ _
      · exact List.mem_cons_of_mem _ (ih h2)
    · simp [hp] at h

lemma mem_of_dropWhile {α : Type} {p : α → Bool} {l : List α} {c : α}
    (h : c ∈ l.dropWhile p) : c ∈ l := by
  induction l with
  | nil => simp [List.dropWhile] at h
  | cons a as ih =>
    rw [List.dropWhile] at h
    by_cases hp : p a
    · rw [hp] at h
      exact List.mem_cons_of_mem _ (ih h)
    · simp only [hp] at h
      simpa using h

lemma toLower_eq_newline {c : Char} (h : c.toLower = '\n') : c = '\n' := by
  simp only [Char.toLower] at h
  split at h
  · exfalso
    rename_i hc
    have hv : Nat.isValidChar (c.toNat + 32) := Or.inl (by omega)
    have h10 := congrArg Char.toNat h
    have he : (Char.ofNat (c.toNat + 32)).toNat = c.toNat + 32 := by
      rw [Char.ofNat, dif_pos hv]
      rfl
    rw [he] at h10
    have hn : ('\n' : Char).toNat = 10 := rfl
    omega
  · exact h

lemma lowerT_no_newline {t : Text} (h : '\n' ∉ t) : '\n' ∉ lowerT t := by
  intro hmem
  rcases List.mem_map.mp hmem with ⟨c, hc, hlow⟩
  exact h (toLower_eq_newline hlow ▸ hc)

lemma joinT_not_mem {c : Char} {sep : Text} : ∀ {l : List Text},
    c ∉ sep → (∀ s ∈ l, c ∉ s) → c ∉ joinT sep l
  | [], _, _ => by simp [joinT]
  | [s], _, h => by simpa [joinT] using h s (by simp)
  | s :: t :: rest, hsep, h => by
    rw [joinT]
    intro hc
    rcases List.mem_append.mp hc with hc1 | hc2
    · rcases List.mem_append.mp hc1 with hc3 | hc4
      · exact h s (by simp) hc3
      · exact hsep hc4
    · exact joinT_not_mem hsep (fun x hx => h x (List.mem_cons_of_mem _ hx)) hc2

lemma splitOnC_cons (sep c : Char) (t : Text) :
    splitOnC sep (c :: t) =
      if c = sep then [] :: splitOnC sep t
      else
        match splitOnC sep t with
        | [] => [[c]]
        | a :: as => (c :: a) :: as := rfl

lemma splitOnC_ne_nil (sep : Char) (t : Text) : splitOnC sep t ≠ [] := by
  induction t with
  | nil => simp [splitOnC]
  | cons c cs ih =>
    rw [splitOnC_cons]
    by_cases hc : c = sep
    · simp [hc]
    · simp only [hc, if_false]
      cases h : splitOnC sep cs with
      | nil => simp
      | cons a as => simp

lemma splitOnC_no_sep {sep : Char} {t : Text} : ∀ s ∈ splitOnC sep t, sep ∉ s := by
  induction t with
  | nil => intro s hs; simp [splitOnC] at hs; simp [hs]
  | cons c cs ih =>
    intro s hs
    rw [splitOnC_cons] at hs
    by_cases hc : c = sep
    · rw [if_pos hc] at hs
      rcases List.mem_cons.mp hs with rfl | hs2
      · simp
      · exact ih s hs2
    · rw [if_neg hc] at hs
      cases h : splitOnC sep cs with
      | nil => exact absurd h (splitOnC_ne_nil sep cs)
      | cons a as =>
        rw [h] at hs
        rcases List.mem_cons.mp hs with rfl | hs2
        · intro hmem
          rcases List.mem_cons.mp hmem with heq | hmem2
          · exact hc heq.symm
          · exact ih a (h ▸ List.mem_cons_self _ _) hmem2
        · exact ih s (h ▸ List.mem_cons_of_mem _ hs2)

lemma splitOnC_sep_free {sep : Char} {a : Text} (h : sep ∉ a) :
    splitOnC sep a = [a] := by
  induction a with
  | nil => rfl
  | cons c cs ih =>
    have hc : ¬(c = sep) := fun he => h (he ▸ List.mem_cons_self _ _)
    have hcs : sep ∉ cs := fun hm => h (List.mem_cons_of_mem _ hm)
    rw [splitOnC_cons, if_neg hc, ih hcs]

lemma splitOnC_append {sep : Char} {a b : Text} (h : sep ∉ a) :
    splitOnC sep (a ++ sep :: b) = a :: splitOnC sep b := by
  induction a with
  | nil => simp [splitOnC_cons]
  | cons c cs ih =>
    have hc : ¬(c = sep) := fun he => h (he ▸ List.mem_cons_self _ _)
    have hcs : sep ∉ cs := fun hm => h (List.mem_cons_of_mem _ hm)
    rw [List.cons_append, splitOnC_cons, if_neg hc, ih hcs]

lemma insertD_perm {α β : Type} [LinearOrder β] (key : α → β) (x : α) :
    ∀ l : List α, (insertD key x l).Perm (x :: l)
  | [] => List.Perm.refl _
  | y :: ys => by
    rw [insertD]
    by_cases hc : key y ≤ key x
    · rw [if_pos hc]
    · rw [if_neg hc]
      exact ((insertD_perm key x ys).cons y).trans (List.Perm.swap x y ys)

lemma sortD_perm {α β : Type} [LinearOrder β] (key : α → β) :
    ∀ l : List α, (sortD key l).Perm l
  | [] => List.Perm.refl _
  | x :: xs =>
    (insertD_perm key x (sortD key xs)).trans ((sortD_perm key xs).cons x)

lemma insertD_pairwise {α β : Type} [LinearOrder β] {key : α → β} {x : α}
    {l : List α} (h : List.Pairwise (fun a b => key b ≤ key a) l) :
    List.Pairwise (fun a b => key b ≤ key a) (insertD key x l) := by
  induction l with
  | nil => simp [insertD]
  | cons y ys ih =>
    rcases List.pairwise_cons.mp h with ⟨hy, hys⟩
    rw [insertD]
    by_cases hc : key y ≤ key x
    · rw [if_pos hc]
      refine List.pairwise_cons.mpr ⟨?_, h⟩
      intro b hb
      rcases List.mem_cons.mp hb with rfl | hb2
      · exact hc
      · exact le_trans (hy b hb2) hc
    · rw [if_neg hc]
      refine List.pairwise_cons.mpr ⟨?_, ih hys⟩
      intro b hb
      have hb3 := (insertD_perm key x ys).mem_iff.mp hb
      rcases List.mem_cons.mp hb3 with rfl | hb4
      · exact le_of_not_le hc
      · exact hy b hb4

lemma sortD_pairwise {α β : Type} [LinearOrder β] (key : α → β) :
    ∀ l : List α, List.Pairwise (fun a b => key b ≤ key a) (sortD key l)
  | [] => List.Pairwise.nil
  | _ :: xs => insertD_pairwise (sortD_pairwise key xs)

lemma countP_one_of_nodup_mem {α : Type} [DecidableEq α] {l : List α} {x : α}
    (hn : l.Nodup) (hm : x ∈ l) : l.countP (fun s => decide (s = x)) = 1 := by
  induction l with
  | nil => cases hm
  | cons y ys ih =>
    rw [List.countP_cons]
    rcases List.mem_cons.mp hm with rfl | hm2
    · have hz : ys.countP (fun s => decide (s = x)) = 0 := by
        rw [List.countP_eq_zero]
        intro a ha
        simp only [decide_eq_true_eq]
        rintro rfl
        exact (List.nodup_cons.mp hn).1 ha
      simp [hz]
    · have hne : ¬(y = x) := by
        rintro rfl
        exact (List.nodup_cons.mp hn).1 hm2
      have hrec := ih (List.nodup_cons.mp hn).2 hm2
      simp [hrec, hne]

lemma find?_first {α : Type} (p : α → Bool) :
    ∀ l : List α,
      (l.find? p = none → ∀ a ∈ l, p a = false) ∧
      (∀ a, l.find? p = some a →
        ∃ i : Fin l.length, l.get i = a ∧ p a = true ∧
          ∀ j : Fin l.length, (j : ℕ) < (i : ℕ) → p (l.get j) = false)
  | [] => by
    constructor
    · intro _ a ha; cases ha
    · intro a h; cases h
  | x :: xs => by
    have ih := find?_first p xs
    constructor
    · intro h a ha
      cases hx : p x with
      | true => simp only [List.find?_cons, hx] at h; cases h
      | false =>
        simp only [List.find?_cons, hx] at h
        rcases List.mem_cons.mp ha with rfl | ha2
        · exact hx
        · exact ih.1 h a ha2
    · intro a h
      cases hx : p x with
      | true =>
        simp only [List.find?_cons, hx] at h
        injection h with h
        subst h
        exact ⟨⟨0, by simp⟩, rfl, hx, fun j hj => absurd hj (by simp)⟩
      | false =>
        simp only [List.find?_cons, hx] at h
        rcases ih.2 a h with ⟨i, hget, hpa, hfirst⟩
        refine ⟨⟨(i : ℕ) + 1, Nat.succ_lt_succ i.isLt⟩, by simpa using hget, hpa, ?_⟩
        intro j hj
        rcases j with ⟨jv, hjv⟩
        cases jv with
        | zero => simpa using hx
        | succ jv2 =>
          have hjv2 : jv2 < xs.length := by simp at hjv; omega
          have := hfirst ⟨jv2, hjv2⟩ (by simpa using hj)
          simpa using this

/-! ### Newline-freedom of the emergency bullet lines -/

lemma matchDoseAt_eq (t : Text) :
    MedicalSummarizer.matchDoseAt t =
      if (t.takeWhile Char.isDigit).isEmpty then none
      else
        match MedicalSummarizer.dose_units.find?
            (fun u => leadsWith u ((t.dropWhile Char.isDigit).dropWhile isSpaceC)) with
        | some u => some (t.takeWhile Char.isDigit ++
            (t.dropWhile Char.isDigit).takeWhile isSpaceC ++ u)
        | none => none := rfl

lemma matchDoseAt_chars {t m : Text}
    (h : MedicalSummarizer.matchDoseAt t = some m) : ∀ c ∈ m, c ∈ t := by
  rw [matchDoseAt_eq] at h
  by_cases hds : (t.takeWhile Char.isDigit).isEmpty
  · rw [if_pos hds] at h; cases h
  · rw [if_neg hds] at h
    cases hf : MedicalSummarizer.dose_units.find?
        (fun u => leadsWith u ((t.dropWhile Char.isDigit).dropWhile isSpaceC)) with
    | none => rw [hf] at h; cases h
    | some u =>
      rw [hf] at h
      injection h with h
      subst h
      intro c hc
      simp only [List.append_assoc, List.mem_append] at hc
      rcases hc with hc1 | hc2 | hc3
      · exact mem_of_takeWhile hc1
      · exact mem_of_dropWhile (mem_of_takeWhile hc2)
      · have hp := List.find?_some hf
        simp only at hp
        have hmem := leadsWith_mem hp c hc3
        exact mem_of_dropWhile (mem_of_dropWhile hmem)

lemma searchDose_chars : ∀ {t m : Text},
    MedicalSummarizer.searchDose t = some m → ∀ c ∈ m, c ∈ t := by
  intro t
  induction t with
  | nil => intro m h; cases h
  | cons a rest ih =>
    intro m h
    rw [MedicalSummarizer.searchDose] at h
    cases hm : MedicalSummarizer.matchDoseAt (a :: rest) with
    | some x =>
      rw [hm] at h
      injection h with h
      subst h
      exact matchDoseAt_chars hm
    | none =>
      rw [hm] at h
      intro c hc
      exact List.mem_cons_of_mem _ (ih h c hc)

lemma allergens_title_no_nl :
    ∀ a ∈ MedicalSummarizer.common_allergens, '\n' ∉ titleT a := by decide

lemma medkw_title_no_nl :
    ∀ m ∈ MedicalSummarizer.med_keywords, '\n' ∉ titleT m := by decide

lemma conditions_title_no_nl :
    ∀ c ∈ MedicalSummarizer.common_conditions, '\n' ∉ titleT c := by decide

lemma extract_allergies_no_nl (t : Text) :
    ∀ s ∈ MedicalSummarizer.extract_allergies t, '\n' ∉ s := by
  intro s hs
  unfold MedicalSummarizer.extract_allergies at hs
  rcases List.mem_map.mp (List.mem_dedup.mp hs) with ⟨a, ha, rfl⟩
  exact allergens_title_no_nl a (List.mem_of_mem_filter ha)

lemma extract_meds_detailed_no_nl (t : Text) :
    ∀ e ∈ MedicalSummarizer.extract_medications_detailed t,
      '\n' ∉ e.name ∧ ∀ d, e.dose = some d → '\n' ∉ d := by
  intro e he
  unfold MedicalSummarizer.extract_medications_detailed at he
  have he2 := List.take_subset 5 _ he
  rcases List.mem_flatMap.mp he2 with ⟨line, hline, hmem⟩
  rcases List.mem_map.mp hmem with ⟨m, hm, rfl⟩
  refine ⟨medkw_title_no_nl m (List.mem_of_mem_filter hm), ?_⟩
  intro d hd hc
  have hnl : '\n' ∉ line := splitOnC_no_sep line hline
  have hnl2 : '\n' ∉ lowerT line := lowerT_no_newline hnl
  exact hnl2 (searchDose_chars hd '\n' hc)

lemma extract_diagnosis_some {t d : Text}
    (h : MedicalSummarizer.extract_diagnosis t = some d) :
    ∃ c ∈ MedicalSummarizer.common_conditions,
      d = titleT c ∧ isSubstr c (lowerT t) = true := by
  unfold MedicalSummarizer.extract_diagnosis at h
  have h2 : Option.map titleT (MedicalSummarizer.common_conditions.find?
      (fun c => isSubstr c (lowerT t))) = some d := h
  clear h
  cases hf : MedicalSummarizer.common_conditions.find?
      (fun c => isSubstr c (lowerT t)) with
  | none => rw [hf] at h2; cases h2
  | some c =>
    rw [hf] at h2
    injection h2 with h
    subst h
    refine ⟨c, List.mem_of_find?_eq_some hf, rfl, ?_⟩
    have := List.find?_some hf
    simpa using this

lemma allergyLine_no_nl (t : Text) : '\n' ∉ MedicalSummarizer.allergyLine t := by
  unfold MedicalSummarizer.allergyLine
  by_cases h : (MedicalSummarizer.extract_allergies t).isEmpty
  · rw [if_pos h]; decide
  · rw [if_neg h]
    intro hc
    rcases List.mem_append.mp hc with h1 | h2
    · revert h1; decide
    · exact joinT_not_mem (by decide) (extract_allergies_no_nl t) h2

lemma medsLine_no_nl (t : Text) : '\n' ∉ MedicalSummarizer.medsLine t := by
  unfold MedicalSummarizer.medsLine
  by_cases h : (MedicalSummarizer.extract_medications_detailed t).isEmpty
  · rw [if_pos h]; decide
  · rw [if_neg h]
    intro hc
    rcases List.mem_append.mp hc with h1 | h2
    · revert h1; decide
    · refine joinT_not_mem (by decide) ?_ h2
      intro s hs
      rcases List.mem_map.mp hs with ⟨m, hm, rfl⟩
      have hm2 := List.take_subset 3 _ hm
      have hprops := extract_meds_detailed_no_nl t m hm2
      cases hdose : m.dose with
      | none => simpa [hdose] using hprops.1
      | some d =>
        simp only [hdose]
        intro hc2
        rcases List.mem_append.mp hc2 with h3 | h4
        · rcases List.mem_append.mp h3 with h5 | h6
          · exact hprops.1 h5
          · revert h6; decide
        · exact hprops.2 d hdose h4

lemma condLine_no_nl (t : Text) : '\n' ∉ MedicalSummarizer.condLine t := by
  unfold MedicalSummarizer.condLine
  cases hd : MedicalSummarizer.extract_diagnosis t with
  | none => decide
  | some d =>
    rcases extract_diagnosis_some hd with ⟨c, hc, rfl, _⟩
    intro hmem
    rcases List.mem_append.mp hmem with h1 | h2
    · revert h1; decide
    · exact conditions_title_no_nl c hc h2

lemma splitOnC_emergency_info (t : Text) :
    splitOnC '\n' (MedicalSummarizer.extract_emergency_info t) =
      [MedicalSummarizer.allergyLine t, MedicalSummarizer.medsLine t,
       MedicalSummarizer.condLine t] := by
  have hjoin : MedicalSummarizer.extract_emergency_info t =
      MedicalSummarizer.allergyLine t ++ '\n' ::
        (MedicalSummarizer.medsLine t ++ '\n' :: MedicalSummarizer.condLine t) := by
    unfold MedicalSummarizer.extract_emergency_info MedicalSummarizer.emergencyLines
    simp [joinT, txt, List.append_assoc]
  rw [hjoin, splitOnC_append (allergyLine_no_nl t),
    splitOnC_append (medsLine_no_nl t), splitOnC_sep_free (condLine_no_nl t)]

/-! ### Claim C1 -/

/-- C1, counterexample to the original claim: for the empty input text,
    `generate_summaries` takes the too-short branch and its emergency summary
    is the single line `"• No critical information available"`, not 3 lines. -/
theorem emergency_three_lines_cex :
    (splitOnC '\n'
      (MedicalSummarizer.generate_summaries (txt "") (txt "Medical Record")).emergency_summary).length ≠ 3 := by
  decide

/-- C1 (amended): for every input text passing the length gate (stripped length
    at least 20; shorter or empty input instead gets the one-line
    `"• No critical information available"` fallback), the emergency summary of
    `generate_summaries` is exactly 3 newline-separated lines in fixed order —
    Allergies, Current Medications, Chronic Conditions — each beginning with
    `"• "` and its category label, with `"Not documented"` rendered when the
    corresponding fact is absent. -/
theorem emergency_three_lines (t dt : Text) (hlen : 20 ≤ (stripT t).length) :
    ∃ l1 l2 l3,
      splitOnC '\n'
          (MedicalSummarizer.generate_summaries t dt).emergency_summary =
        [l1, l2, l3] ∧
      leadsWith (txt "• Allergies: ") l1 = true ∧
      leadsWith (txt "• Current Medications: ") l2 = true ∧
      leadsWith (txt "• Chronic Conditions: ") l3 = true ∧
      (MedicalSummarizer.extract_allergies t = [] →
        l1 = txt "• Allergies: Not documented") ∧
      (MedicalSummarizer.extract_medications_detailed t = [] →
        l2 = txt "• Current Medications: Not documented") ∧
      (MedicalSummarizer.extract_diagnosis t = none →
        l3 = txt "• Chronic Conditions: Not documented") := by
  have hsum : (MedicalSummarizer.generate_summaries t dt).emergency_summary =
      MedicalSummarizer.extract_emergency_info t := by
    unfold MedicalSummarizer.generate_summaries
    have h1 : t.isEmpty = false := by
      cases t with
      | nil => simp [stripT, List.dropWhile] at hlen
      | cons _ _ => rfl
    have h2 : ¬((stripT t).length < 20) := by omega
    simp [h1, h2]
  refine ⟨MedicalSummarizer.allergyLine t, MedicalSummarizer.medsLine t,
    MedicalSummarizer.condLine t, ?_, ?_, ?_, ?_, ?_, ?_, ?_⟩
  · rw [hsum, splitOnC_emergency_info]
  · unfold MedicalSummarizer.allergyLine
    by_cases h : (MedicalSummarizer.extract_allergies t).isEmpty
    · rw [if_pos h]; decide
    · rw [if_neg h]; exact leadsWith_append _ _
  · unfold MedicalSummarizer.medsLine
    by_cases h : (MedicalSummarizer.extract_medications_detailed t).isEmpty
    · rw [if_pos h]; decide
    · rw [if_neg h]; exact leadsWith_append _ _
  · unfold MedicalSummarizer.condLine
    cases hd : MedicalSummarizer.extract_diagnosis t with
    | none => decide
    | some d => exact leadsWith_append _ _
  · intro h
    unfold MedicalSummarizer.allergyLine
    rw [if_pos (by simp [h])]
  · intro h
    unfold MedicalSummarizer.medsLine
    rw [if_pos (by simp [h])]
  · intro h
    unfold MedicalSummarizer.condLine
    rw [h]

/-- C1, witness: the amended theorem applied to a concrete 44-character text. -/
theorem emergency_three_lines_witness :
    20 ≤ (stripT (txt "Diagnosis: asthma. Allergy to penicillin noted.")).length ∧
    (∃ l1 l2 l3,
      splitOnC '\n'
          (MedicalSummarizer.generate_summaries
            (txt "Diagnosis: asthma. Allergy to penicillin noted.")
            (txt "Medical Record")).emergency_summary =
        [l1, l2, l3] ∧
      leadsWith (txt "• Allergies: ") l1 = true ∧
      leadsWith (txt "• Current Medications: ") l2 = true ∧
      leadsWith (txt "• Chronic Conditions: ") l3 = true ∧
      (MedicalSummarizer.extract_allergies
          (txt "Diagnosis: asthma. Allergy to penicillin noted.") = [] →
        l1 = txt "• Allergies: Not documented") ∧
      (MedicalSummarizer.extract_medications_detailed
          (txt "Diagnosis: asthma. Allergy to penicillin noted.") = [] →
        l2 = txt "• Current Medications: Not documented") ∧
      (MedicalSummarizer.extract_diagnosis
          (txt "Diagnosis: asthma. Allergy to penicillin noted.") = none →
        l3 = txt "• Chronic Conditions: Not documented")) :=
  ⟨by decide, emergency_three_lines _ _ (by decide)⟩

/-! ### Claim C5 -/

/-- C5: diagnosis extraction returns at most one diagnosis (an `Option`); when
    it returns one, the result is the title-cased FIRST phrase of the lexicon
    `common_conditions` (in lexicon order, regardless of text position) that
    occurs case-insensitively in the text: every earlier lexicon phrase does
    not occur.  When no lexicon phrase occurs, `none` is returned. -/
theorem diagnosis_first_lexicon_match (t : Text) :
    (MedicalSummarizer.extract_diagnosis t = none →
      ∀ c ∈ MedicalSummarizer.common_conditions, isSubstr c (lowerT t) = false) ∧
    (∀ d, MedicalSummarizer.extract_diagnosis t = some d →
      ∃ i : Fin MedicalSummarizer.common_conditions.length,
        d = titleT (MedicalSummarizer.common_conditions.get i) ∧
        isSubstr (MedicalSummarizer.common_conditions.get i) (lowerT t) = true ∧
        ∀ j : Fin MedicalSummarizer.common_conditions.length, (j : ℕ) < (i : ℕ) →
          isSubstr (MedicalSummarizer.common_conditions.get j) (lowerT t) = false) := by
  have hfind := find?_first (fun c => isSubstr c (lowerT t))
    MedicalSummarizer.common_conditions
  constructor
  · intro h c hc
    unfold MedicalSummarizer.extract_diagnosis at h
    have h2 : Option.map titleT (MedicalSummarizer.common_conditions.find?
        (fun c => isSubstr c (lowerT t))) = none := h
    rw [Option.map_eq_none'] at h2
    exact hfind.1 h2 c hc
  · intro d h
    unfold MedicalSummarizer.extract_diagnosis at h
    have h2 : Option.map titleT (MedicalSummarizer.common_conditions.find?
        (fun c => isSubstr c (lowerT t))) = some d := h
    rcases Option.map_eq_some'.mp h2 with ⟨c, hc, rfl⟩
    rcases hfind.2 c hc with ⟨i, hget, hsub, hfirst⟩
    exact ⟨i, by rw [hget], by rw [hget]; exact hsub, fun j hj => hfirst j hj⟩

/-- C5, witness: on a text where "hypertension" occurs before any diabetes
    phrase in TEXT order, the lexicon order still decides: "diabetes" (lexicon
    position 3) wins over "hypertension" (lexicon position 4); the theorem is
    applied to that text. -/
theorem diagnosis_first_lexicon_match_witness :
    MedicalSummarizer.extract_diagnosis
        (txt "hypertension and diabetes present") = some (txt "Diabetes") ∧
    ((MedicalSummarizer.extract_diagnosis (txt "hypertension and diabetes present") = none →
      ∀ c ∈ MedicalSummarizer.common_conditions,
        isSubstr c (lowerT (txt "hypertension and diabetes present")) = false) ∧
    (∀ d, MedicalSummarizer.extract_diagnosis (txt "hypertension and diabetes present") = some d →
      ∃ i : Fin MedicalSummarizer.common_conditions.length,
        d = titleT (MedicalSummarizer.common_conditions.get i) ∧
        isSubstr (MedicalSummarizer.common_conditions.get i)
          (lowerT (txt "hypertension and diabetes present")) = true ∧
        ∀ j : Fin MedicalSummarizer.common_conditions.length, (j : ℕ) < (i : ℕ) →
          isSubstr (MedicalSummarizer.common_conditions.get j)
            (lowerT (txt "hypertension and diabetes present")) = false)) :=
  ⟨by decide, diagnosis_first_lexicon_match _⟩

/-! ### Claim C6 -/

/-- C6: for every text containing a lexicon allergen case-insensitively, the
    allergy list contains that allergen's title-cased canonical form exactly
    once (set semantics: occurrences are deduplicated), no matter how often it
    occurs in the text. -/
theorem allergy_title_exactly_once (t a : Text)
    (ha : a ∈ MedicalSummarizer.common_allergens)
    (hocc : isSubstr a (lowerT t) = true) :
    (MedicalSummarizer.extract_allergies t).countP
      (fun s => decide (s = titleT a)) = 1 := by
  unfold MedicalSummarizer.extract_allergies
  refine countP_one_of_nodup_mem (List.nodup_dedup _) (List.mem_dedup.mpr ?_)
  exact List.mem_map_of_mem titleT (List.mem_filter.mpr ⟨ha, by simpa using hocc⟩)

/-- C6, witness: "PENICILLIN" occurs three times in mixed case; the returned
    list contains "Penicillin" exactly once. -/
theorem allergy_title_exactly_once_witness :
    txt "penicillin" ∈ MedicalSummarizer.common_allergens ∧
    isSubstr (txt "penicillin")
      (lowerT (txt "PENICILLIN! penicillin, Penicillin")) = true ∧
    (MedicalSummarizer.extract_allergies
        (txt "PENICILLIN! penicillin, Penicillin")).countP
      (fun s => decide (s = titleT (txt "penicillin"))) = 1 :=
  ⟨by decide, by decide,
    allergy_title_exactly_once _ _ (by decide) (by decide)⟩

/-! ### Claim C7 -/

/-- The rank of a confidence label in the order Low < Medium < High. -/
def confRank (c : Text) : Nat :=
  if c = txt "High" then 2 else if c = txt "Medium" then 1 else 0

lemma boolScore_mono {b1 b2 : Bool} (h : b1 = true → b2 = true) :
    (if b1 then (1 : ℕ) else 0) ≤ (if b2 then 1 else 0) := by
  cases b1 <;> cases b2 <;> simp_all

lemma confRank_calculate (t : Text) :
    confRank (MedicalSummarizer.calculate_confidence t) =
      MedicalSummarizer.confScore t - 1 := by
  have hb : MedicalSummarizer.confScore t ≤ 3 := by
    unfold MedicalSummarizer.confScore
    split <;> split <;> split <;> omega
  unfold MedicalSummarizer.calculate_confidence
  by_cases h3 : 3 ≤ MedicalSummarizer.confScore t
  · rw [if_pos h3]
    have : confRank (txt "High") = 2 := by decide
    omega
  · rw [if_neg h3]
    by_cases h2 : 2 ≤ MedicalSummarizer.confScore t
    · rw [if_pos h2]
      have : confRank (txt "Medium") = 1 := by decide
      omega
    · rw [if_neg h2]
      have : confRank (txt "Low") = 0 := by decide
      omega

/-- C7: the confidence level is computed from the three keyword signals
    (diagnosis stem, medication-or-prescription stem, patient-identifier
    keyword) as 3 → High, 2 → Medium, 0-1 → Low; whenever one text satisfies
    every signal another satisfies, its confidence is at least as high in the
    order Low < Medium < High — adding recognizable facts never decreases
    confidence. -/
theorem confidence_monotone (t1 t2 : Text)
    (h1 : MedicalSummarizer.hasDiagnosisKw t1 = true →
      MedicalSummarizer.hasDiagnosisKw t2 = true)
    (h2 : MedicalSummarizer.hasMedicationKw t1 = true →
      MedicalSummarizer.hasMedicationKw t2 = true)
    (h3 : MedicalSummarizer.hasPatientKw t1 = true →
      MedicalSummarizer.hasPatientKw t2 = true) :
    confRank (MedicalSummarizer.calculate_confidence t1) ≤
      confRank (MedicalSummarizer.calculate_confidence t2) := by
  have hs : MedicalSummarizer.confScore t1 ≤ MedicalSummarizer.confScore t2 := by
    unfold MedicalSummarizer.confScore
    have g1 := boolScore_mono h1
    have g2 := boolScore_mono h2
    have g3 := boolScore_mono h3
    omega
  rw [confRank_calculate, confRank_calculate]
  omega

/-- C7, witness: the empty text (no signals, Low) against a text with all
    three signals (High). -/
theorem confidence_monotone_witness :
    confRank (MedicalSummarizer.calculate_confidence (txt "")) ≤
      confRank (MedicalSummarizer.calculate_confidence
        (txt "patient diagnosed, medication given")) :=
  confidence_monotone _ _ (by decide) (by decide) (by decide)

/-! ### Claim C8 -/

lemma summaryParts_nil_iff (t : Text) :
    MedicalSummarizer.summaryParts t = [] ↔
      (MedicalSummarizer.extract_diagnosis t = none ∧
       MedicalSummarizer.extract_medications_simple t = [] ∧
       MedicalSummarizer.extract_allergies t = [] ∧
       MedicalSummarizer.extract_follow_up t = none) := by
  unfold MedicalSummarizer.summaryParts
  cases hd : MedicalSummarizer.extract_diagnosis t <;>
    cases hf : MedicalSummarizer.extract_follow_up t <;>
      by_cases hm : (MedicalSummarizer.extract_medications_simple t).isEmpty <;>
        by_cases ha : (MedicalSummarizer.extract_allergies t).isEmpty <;>
          simp_all [List.isEmpty_iff]

/-- C8: when none of the four fact categories (diagnosis, medications,
    allergies, follow-up) is found — and `summaryParts` is empty exactly then —
    the patient summary is assembled from the first three `'.'`-sentences of
    the text whose stripped length exceeds 20, each re-terminated with a
    period; when some fact is found, it is the join of the fact fragments in
    the fixed priority order captured by `summaryParts` (diagnosis, then
    medications, then warning-marked allergies, then follow-up), capped at 5. -/
theorem patient_summary_modes (t : Text) :
    (MedicalSummarizer.summaryParts t = [] ↔
      (MedicalSummarizer.extract_diagnosis t = none ∧
       MedicalSummarizer.extract_medications_simple t = [] ∧
       MedicalSummarizer.extract_allergies t = [] ∧
       MedicalSummarizer.extract_follow_up t = none)) ∧
    (MedicalSummarizer.summaryParts t = [] →
      MedicalSummarizer.create_patient_friendly_summary t =
        joinT (txt " ")
          ((((splitOnC '.' t).take 3).filterMap
            (fun s =>
              if 20 < (stripT s).length then some (stripT s ++ txt ".")
              else none)).take 5)) ∧
    (MedicalSummarizer.summaryParts t ≠ [] →
      MedicalSummarizer.create_patient_friendly_summary t =
        joinT (txt " ") ((MedicalSummarizer.summaryParts t).take 5)) := by
  refine ⟨summaryParts_nil_iff t, ?_, ?_⟩
  · intro h
    unfold MedicalSummarizer.create_patient_friendly_summary
    simp [h, MedicalSummarizer.fallbackParts]
  · intro h
    unfold MedicalSummarizer.create_patient_friendly_summary
    have h2 : (MedicalSummarizer.summaryParts t).isEmpty = false := by
      simpa [List.isEmpty_iff] using h
    simp [h2]

/-- C8, witness: the theorem applied to a fact-free narrative text whose
    summary therefore falls back to its long sentences. -/
theorem patient_summary_modes_witness :
    (MedicalSummarizer.summaryParts
        (txt "the person was resting comfortably. vitals were stable all night.") = [] ↔
      (MedicalSummarizer.extract_diagnosis
          (txt "the person was resting comfortably. vitals were stable all night.") = none ∧
       MedicalSummarizer.extract_medications_simple
          (txt "the person was resting comfortably. vitals were stable all night.") = [] ∧
       MedicalSummarizer.extract_allergies
          (txt "the person was resting comfortably. vitals were stable all night.") = [] ∧
       MedicalSummarizer.extract_follow_up
          (txt "the person was resting comfortably. vitals were stable all night.") = none)) ∧
    (MedicalSummarizer.summaryParts
        (txt "the person was resting comfortably. vitals were stable all night.") = [] →
      MedicalSummarizer.create_patient_friendly_summary
          (txt "the person was resting comfortably. vitals were stable all night.") =
        joinT (txt " ")
          ((((splitOnC '.'
              (txt "the person was resting comfortably. vitals were stable all night.")).take 3).filterMap
            (fun s =>
              if 20 < (stripT s).length then some (stripT s ++ txt ".")
              else none)).take 5)) ∧
    (MedicalSummarizer.summaryParts
        (txt "the person was resting comfortably. vitals were stable all night.") ≠ [] →
      MedicalSummarizer.create_patient_friendly_summary
          (txt "the person was resting comfortably. vitals were stable all night.") =
        joinT (txt " ")
          ((MedicalSummarizer.summaryParts
            (txt "the person was resting comfortably. vitals were stable all night.")).take 5)) :=
  patient_summary_modes _

/-! ### Claim C9 -/

lemma chunkSim_bounds (query_words : List Text) (text : Text) :
    0 ≤ EmbeddingsService.chunkSim query_words text ∧
      EmbeddingsService.chunkSim query_words text ≤ 1 := by
  unfold EmbeddingsService.chunkSim
  by_cases h : query_words.isEmpty
  · simp [h]
  · have hlen : 0 < query_words.length := by
      cases query_words with
      | nil => simp at h
      | cons _ _ => simp
    have hlenq : (0 : ℚ) < (query_words.length : ℚ) := by exact_mod_cast hlen
    simp only [h, if_false, Bool.false_eq_true]
    constructor
    · apply div_nonneg _ (le_of_lt hlenq)
      exact_mod_cast Nat.zero_le _
    · rw [div_le_one hlenq]
      exact_mod_cast query_words.countP_le_length _

lemma semantic_search_eq (table : List EmbeddingsService.ChunkRow)
    (hid q : Text) (k : Nat) :
    EmbeddingsService.semantic_search table hid q k =
      (sortD (fun r => r.similarity)
        ((table.filter (fun r => decide (r.health_id = hid))).map
          (EmbeddingsService.scoreChunk (EmbeddingsService.queryWords q)))).take k := by
  unfold EmbeddingsService.semantic_search
  by_cases h : (table.filter (fun r => decide (r.health_id = hid))).isEmpty
  · have h2 : table.filter (fun r => decide (r.health_id = hid)) = [] := by
      simpa [List.isEmpty_iff] using h
    simp [h, h2, sortD]
  · simp [h]

/-- C9: semantic search scores every stored chunk of the patient with
    similarity = (distinct matched query words) / (query word-set size), a
    value in [0,1] with a guarded division; results are the
    descending-similarity stable sort of ALL the patient's chunks (a
    permutation — zero-similarity chunks are kept, not filtered) truncated to
    `top_k`; a patient with zero stored chunks yields `[]`, not an error. -/
theorem semantic_search_spec (table : List EmbeddingsService.ChunkRow)
    (hid q : Text) (k : Nat) :
    (table.filter (fun r => decide (r.health_id = hid)) = [] →
      EmbeddingsService.semantic_search table hid q k = []) ∧
    (EmbeddingsService.semantic_search table hid q k).length =
      min k (table.filter (fun r => decide (r.health_id = hid))).length ∧
    List.Pairwise (fun a b => b.similarity ≤ a.similarity)
      (EmbeddingsService.semantic_search table hid q k) ∧
    (sortD (fun r => r.similarity)
        ((table.filter (fun r => decide (r.health_id = hid))).map
          (EmbeddingsService.scoreChunk (EmbeddingsService.queryWords q)))).Perm
      ((table.filter (fun r => decide (r.health_id = hid))).map
        (EmbeddingsService.scoreChunk (EmbeddingsService.queryWords q))) ∧
    (∀ r ∈ EmbeddingsService.semantic_search table hid q k,
      0 ≤ r.similarity ∧ r.similarity ≤ 1 ∧
      r.similarity =
        EmbeddingsService.chunkSim (EmbeddingsService.queryWords q) r.text) ∧
    EmbeddingsService.semantic_search table hid q k =
      (sortD (fun r => r.similarity)
        ((table.filter (fun r => decide (r.health_id = hid))).map
          (EmbeddingsService.scoreChunk (EmbeddingsService.queryWords q)))).take k := by
  have hdef := semantic_search_eq table hid q k
  have hperm := sortD_perm
    (fun r : EmbeddingsService.SearchResult => r.similarity)
    ((table.filter (fun r => decide (r.health_id = hid))).map
      (EmbeddingsService.scoreChunk (EmbeddingsService.queryWords q)))
  refine ⟨?_, ?_, ?_, hperm, ?_, hdef⟩
  · intro h
    rw [hdef, h]
    simp [sortD]
  · rw [hdef, List.length_take, hperm.length_eq, List.length_map]
  · rw [hdef]
    exact List.Pairwise.sublist (List.take_sublist _ _)
      (sortD_pairwise (fun r : EmbeddingsService.SearchResult => r.similarity) _)
  · intro r hr
    rw [hdef] at hr
    have hr2 := hperm.mem_iff.mp (List.take_subset _ _ hr)
    rcases List.mem_map.mp hr2 with ⟨row, _, rfl⟩
    refine ⟨(chunkSim_bounds _ _).1, (chunkSim_bounds _ _).2, rfl⟩

/-- C9, witness: the spec's scenario — query "diabetes metformin" over one
    chunk containing both words and one containing neither; with the default
    `top_k = 3` both chunks are returned, the matching one first at similarity
    1 and the non-matching one kept at similarity 0. -/
theorem semantic_search_spec_witness :
    (([⟨1, 10, txt "MV1", txt "diabetes treated with metformin"⟩,
       ⟨2, 11, txt "MV1", txt "ankle sprain, rest advised"⟩] :
        List EmbeddingsService.ChunkRow).filter
          (fun r => decide (r.health_id = txt "MV1")) = [] →
      EmbeddingsService.semantic_search
        [⟨1, 10, txt "MV1", txt "diabetes treated with metformin"⟩,
         ⟨2, 11, txt "MV1", txt "ankle sprain, rest advised"⟩]
        (txt "MV1") (txt "diabetes metformin") 3 = []) ∧
    (EmbeddingsService.semantic_search
        [⟨1, 10, txt "MV1", txt "diabetes treated with metformin"⟩,
         ⟨2, 11, txt "MV1", txt "ankle sprain, rest advised"⟩]
        (txt "MV1") (txt "diabetes metformin") 3).length =
      min 3 (([⟨1, 10, txt "MV1", txt "diabetes treated with metformin"⟩,
        ⟨2, 11, txt "MV1", txt "ankle sprain, rest advised"⟩] :
          List EmbeddingsService.ChunkRow).filter
            (fun r => decide (r.health_id = txt "MV1"))).length ∧
    List.Pairwise (fun a b => b.similarity ≤ a.similarity)
      (EmbeddingsService.semantic_search
        [⟨1, 10, txt "MV1", txt "diabetes treated with metformin"⟩,
         ⟨2, 11, txt "MV1", txt "ankle sprain, rest advised"⟩]
        (txt "MV1") (txt "diabetes metformin") 3) ∧
    (sortD (fun r => r.similarity)
        ((([⟨1, 10, txt "MV1", txt "diabetes treated with metformin"⟩,
           ⟨2, 11, txt "MV1", txt "ankle sprain, rest advised"⟩] :
            List EmbeddingsService.ChunkRow).filter
              (fun r => decide (r.health_id = txt "MV1"))).map
          (EmbeddingsService.scoreChunk
            (EmbeddingsService.queryWords (txt "diabetes metformin"))))).Perm
      ((([⟨1, 10, txt "MV1", txt "diabetes treated with metformin"⟩,
         ⟨2, 11, txt "MV1", txt "ankle sprain, rest advised"⟩] :
          List EmbeddingsService.ChunkRow).filter
            (fun r => decide (r.health_id = txt "MV1"))).map
        (EmbeddingsService.scoreChunk
          (EmbeddingsService.queryWords (txt "diabetes metformin")))) ∧
    (∀ r ∈ EmbeddingsService.semantic_search
        [⟨1, 10, txt "MV1", txt "diabetes treated with metformin"⟩,
         ⟨2, 11, txt "MV1", txt "ankle sprain, rest advised"⟩]
        (txt "MV1") (txt "diabetes metformin") 3,
      0 ≤ r.similarity ∧ r.similarity ≤ 1 ∧
      r.similarity = EmbeddingsService.chunkSim
        (EmbeddingsService.queryWords (txt "diabetes metformin")) r.text) ∧
    EmbeddingsService.semantic_search
        [⟨1, 10, txt "MV1", txt "diabetes treated with metformin"⟩,
         ⟨2, 11, txt "MV1", txt "ankle sprain, rest advised"⟩]
        (txt "MV1") (txt "diabetes metformin") 3 =
      (sortD (fun r => r.similarity)
        ((([⟨1, 10, txt "MV1", txt "diabetes treated with metformin"⟩,
           ⟨2, 11, txt "MV1", txt "ankle sprain, rest advised"⟩] :
            List EmbeddingsService.ChunkRow).filter
              (fun r => decide (r.health_id = txt "MV1"))).map
          (EmbeddingsService.scoreChunk
            (EmbeddingsService.queryWords (txt "diabetes metformin"))))).take 3 :=
  semantic_search_spec _ _ _ _

/-! ### Claim C2 -/

/-- A concrete database with two summary rows for patient MV1 (timestamps 1
    and 2) and one raw medical record, used by witnesses. -/
def dbTwoSummaries : EmergencyAI.DB :=
  { ai_summaries :=
      [{ record_id := 1, health_id := txt "MV1",
         patient_summary := txt "p1", doctor_summary := txt "d1",
         emergency_summary := txt "e1", confidence := txt "Low",
         generated_at := 1 },
       { record_id := 2, health_id := txt "MV1",
         patient_summary := txt "p2", doctor_summary := txt "d2",
         emergency_summary := txt "e2", confidence := txt "High",
         generated_at := 2 }],
    medical_records :=
      [{ id := 1, health_id := txt "MV1",
         document_type := txt "Prescription", upload_date := 1 }],
    emergency_logs := [] }

/-- A concrete database with one summary row and one record for MV1. -/
def dbOneSummary : EmergencyAI.DB :=
  { ai_summaries :=
      [{ record_id := 1, health_id := txt "MV1",
         patient_summary := txt "p1", doctor_summary := txt "d1",
         emergency_summary := txt "e1", confidence := txt "High",
         generated_at := 1 }],
    medical_records :=
      [{ id := 1, health_id := txt "MV1",
         document_type := txt "Prescription", upload_date := 1 }],
    emergency_logs := [] }

/-- The empty database. -/
def dbEmpty : EmergencyAI.DB :=
  { ai_summaries := [], medical_records := [], emergency_logs := [] }

/-- C2, counterexample to the original claim: in a database whose two MV1
    summary rows were inserted oldest-first (`generated_at` 1 then 2, the
    order the application inserts them), the cache hit serves the FIRST
    scan-order row's summary "e1", while the unique most recently generated
    row (strictly larger `generated_at` than every other MV1 row) carries
    "e2" — so the brief is NOT the most recently generated record's summary. -/
theorem cache_precedence_cex :
    (EmergencyAI.get_emergency_summary dbTwoSummaries false false
      (txt "MV1")).cached = true ∧
    (EmergencyAI.get_emergency_summary dbTwoSummaries false false
      (txt "MV1")).emergency_summary = txt "e1" ∧
    (∃ r ∈ dbTwoSummaries.ai_summaries, r.health_id = txt "MV1" ∧
      r.emergency_summary = txt "e2" ∧
      ∀ r2 ∈ dbTwoSummaries.ai_summaries, r2.health_id = txt "MV1" →
        r2 = r ∨ r2.generated_at < r.generated_at) ∧
    txt "e1" ≠ txt "e2" := by decide

/-- C2 (amended): for a patient with at least one persisted summary row, the
    emergency brief is served from the cache: `cached = true`, `source_count`
    is the number of summaries stored for the patient, the emergency summary
    and confidence come from one of the patient's stored rows — the group
    representative, which is the patient's FIRST row in table order, not
    necessarily the most recently generated one — and the result is identical
    for EVERY state of the `medical_records` table and of the records-read
    outcome: raw documents are never re-scanned. -/
theorem cache_precedence (db : EmergencyAI.DB) (recordsFail : Bool) (hid : Text)
    (h : db.ai_summaries.filter (fun r => decide (r.health_id = hid)) ≠ []) :
    ∃ r : EmergencyAI.SummaryRow,
      (db.ai_summaries.filter
        (fun r2 => decide (r2.health_id = hid))).head? = some r ∧
      r ∈ db.ai_summaries ∧ r.health_id = hid ∧
      ∀ mrs : List EmergencyAI.MedicalRecordRow,
        EmergencyAI.get_emergency_summary
            { db with medical_records := mrs } false recordsFail hid =
          { success := true, health_id := hid,
            emergency_summary := r.emergency_summary,
            confidence := r.confidence,
            source_count :=
              (db.ai_summaries.filter
                (fun r2 => decide (r2.health_id = hid))).length,
            cached := true } := by
  obtain ⟨r, rest, hrows⟩ : ∃ r rest,
      db.ai_summaries.filter (fun r => decide (r.health_id = hid)) =
      r :: rest := by
    cases hf : db.ai_summaries.filter (fun r => decide (r.health_id = hid)) with
    | nil => exact absurd hf h
    | cons a as => exact ⟨a, as, rfl⟩
  have hhead : (db.ai_summaries.filter
      (fun r2 => decide (r2.health_id = hid))).head? = some r := by
    rw [hrows]; rfl
  have hmem : r ∈ db.ai_summaries.filter (fun r => decide (r.health_id = hid)) := by
    rw [hrows]; exact List.mem_cons_self _ _
  have hhid : r.health_id = hid := by
    have := List.of_mem_filter hmem
    simpa using this
  refine ⟨r, hhead, List.mem_of_mem_filter hmem, hhid, ?_⟩
  intro mrs
  have hc : EmergencyAI.get_cached_summary
      { db with medical_records := mrs } false hid =
      some { emergency_summary := r.emergency_summary,
             confidence := r.confidence,
             last_updated := r.generated_at,
             source_count :=
               (db.ai_summaries.filter
                 (fun r2 => decide (r2.health_id = hid))).length } := by
    unfold EmergencyAI.get_cached_summary
    simp only [Bool.false_eq_true, if_false]
    rw [show ({ db with medical_records := mrs } :
        EmergencyAI.DB).ai_summaries = db.ai_summaries from rfl]
    rw [hhead]
  unfold EmergencyAI.get_emergency_summary
  rw [hc]

/-- C2, witness: the amended theorem applied to `dbTwoSummaries` and MV1. -/
theorem cache_precedence_witness :
    dbTwoSummaries.ai_summaries.filter
      (fun r => decide (r.health_id = txt "MV1")) ≠ [] ∧
    (∃ r : EmergencyAI.SummaryRow,
      (dbTwoSummaries.ai_summaries.filter
        (fun r2 => decide (r2.health_id = txt "MV1"))).head? = some r ∧
      r ∈ dbTwoSummaries.ai_summaries ∧ r.health_id = txt "MV1" ∧
      ∀ mrs : List EmergencyAI.MedicalRecordRow,
        EmergencyAI.get_emergency_summary
            { dbTwoSummaries with medical_records := mrs } false false (txt "MV1") =
          { success := true, health_id := txt "MV1",
            emergency_summary := r.emergency_summary,
            confidence := r.confidence,
            source_count :=
              (dbTwoSummaries.ai_summaries.filter
                (fun r2 => decide (r2.health_id = txt "MV1"))).length,
            cached := true }) :=
  ⟨by decide, cache_precedence _ false _ (by decide)⟩

/-! ### Claim C3 -/

/-- C3: every emergency-mode request appends exactly one access-log row
    (health id, `accessed_by` defaulting to "ANONYMOUS", origin address) —
    independently of the brief's outcome, since the brief and the appended row
    are the same for every database and flag state — and a failing audit write
    is reported only as `false`, leaves the log unchanged, and never alters
    the returned brief; the other tables are never written. -/
theorem emergency_audit_log (db : EmergencyAI.DB) (cf rf lf : Bool) (hid : Text)
    (su : Option Text) (ip : Text) :
    (App.emergency_mode db cf rf lf hid su ip).1 =
      EmergencyAI.get_emergency_summary db cf rf hid ∧
    (lf = false →
      (App.emergency_mode db cf rf lf hid su ip).2.2.emergency_logs =
        db.emergency_logs ++
          [{ health_id := hid, accessed_by := su.getD (txt "ANONYMOUS"),
             ip_address := ip }] ∧
      (App.emergency_mode db cf rf lf hid su ip).2.1 = true) ∧
    (lf = true →
      (App.emergency_mode db cf rf lf hid su ip).2.2 = db ∧
      (App.emergency_mode db cf rf lf hid su ip).2.1 = false) ∧
    (App.emergency_mode db cf rf lf hid su ip).2.2.ai_summaries =
      db.ai_summaries ∧
    (App.emergency_mode db cf rf lf hid su ip).2.2.medical_records =
      db.medical_records := by
  unfold App.emergency_mode EmergencyAI.log_emergency_access
  cases lf <;> simp

/-- C3, witness: an anonymous request for an unknown patient on the empty
    database still appends its audit row while the brief reports no records. -/
theorem emergency_audit_log_witness :
    (App.emergency_mode dbEmpty false false false (txt "MV9") none
        (txt "10.0.0.1")).1 =
      EmergencyAI.get_emergency_summary dbEmpty false false (txt "MV9") ∧
    (false = false →
      (App.emergency_mode dbEmpty false false false (txt "MV9") none
          (txt "10.0.0.1")).2.2.emergency_logs =
        dbEmpty.emergency_logs ++
          [{ health_id := txt "MV9",
             accessed_by := (none : Option Text).getD (txt "ANONYMOUS"),
             ip_address := txt "10.0.0.1" }] ∧
      (App.emergency_mode dbEmpty false false false (txt "MV9") none
          (txt "10.0.0.1")).2.1 = true) ∧
    (false = true →
      (App.emergency_mode dbEmpty false false false (txt "MV9") none
          (txt "10.0.0.1")).2.2 = dbEmpty ∧
      (App.emergency_mode dbEmpty false false false (txt "MV9") none
          (txt "10.0.0.1")).2.1 = false) ∧
    (App.emergency_mode dbEmpty false false false (txt "MV9") none
        (txt "10.0.0.1")).2.2.ai_summaries = dbEmpty.ai_summaries ∧
    (App.emergency_mode dbEmpty false false false (txt "MV9") none
        (txt "10.0.0.1")).2.2.medical_records = dbEmpty.medical_records :=
  emergency_audit_log _ _ _ _ _ _ _

/-! ### Claim C4 -/

/-- C4: for a patient with no stored summary rows (hence no cached summary and
    no joinable documents), `get_emergency_summary` returns — never raises; it
    is a total function into `Brief` — the structured fallback with
    `success = false`, confidence Low, `source_count = 0`, `cached = false`,
    and the literal "no medical records found" emergency text. -/
theorem no_records_fallback (db : EmergencyAI.DB) (recordsFail : Bool)
    (hid : Text)
    (h : db.ai_summaries.filter (fun r => decide (r.health_id = hid)) = []) :
    EmergencyAI.get_emergency_summary db false recordsFail hid =
      { success := false, health_id := hid,
        emergency_summary := EmergencyAI.noRecordsText,
        confidence := txt "Low", source_count := 0, cached := false } := by
  have hcache : EmergencyAI.get_cached_summary db false hid = none := by
    unfold EmergencyAI.get_cached_summary
    simp [h]
  have hrec : EmergencyAI.get_patient_records db recordsFail hid = [] := by
    unfold EmergencyAI.get_patient_records
    cases recordsFail
    · simp [h, sortD]
    · simp
  unfold EmergencyAI.get_emergency_summary
  rw [hcache, hrec]
  rfl

/-- C4, witness: the unknown patient MV9 on the empty database. -/
theorem no_records_fallback_witness :
    dbEmpty.ai_summaries.filter
      (fun r => decide (r.health_id = txt "MV9")) = [] ∧
    EmergencyAI.get_emergency_summary dbEmpty false false (txt "MV9") =
      { success := false, health_id := txt "MV9",
        emergency_summary := EmergencyAI.noRecordsText,
        confidence := txt "Low", source_count := 0, cached := false } :=
  ⟨by decide, no_records_fallback _ false _ (by decide)⟩

/-! ### Claim C10 -/

/-- C10: when the records read raises during a cache-miss request, the
    exception is swallowed and the result is exactly the brief produced for a
    patient with a genuinely empty history (same logs, no stored rows):
    `success = false`, `source_count = 0`, the literal no-records text — the
    caller cannot distinguish a storage failure from an empty patient history.
    Likewise a failing cache read returns `None` unconditionally, i.e. is
    silently treated as a cache miss. -/
theorem storage_failure_indistinguishable (db : EmergencyAI.DB) (cf : Bool)
    (hid : Text)
    (hmiss : EmergencyAI.get_cached_summary db cf hid = none) :
    EmergencyAI.get_emergency_summary db cf true hid =
      EmergencyAI.get_emergency_summary
        { ai_summaries := [], medical_records := [],
          emergency_logs := db.emergency_logs } false false hid ∧
    (EmergencyAI.get_emergency_summary db cf true hid).success = false ∧
    (EmergencyAI.get_emergency_summary db cf true hid).source_count = 0 ∧
    (∀ db2 : EmergencyAI.DB, ∀ hid2 : Text,
      EmergencyAI.get_cached_summary db2 true hid2 = none) := by
  have hlhs : EmergencyAI.get_emergency_summary db cf true hid =
      { success := false, health_id := hid,
        emergency_summary := EmergencyAI.noRecordsText,
        confidence := txt "Low", source_count := 0, cached := false } := by
    unfold EmergencyAI.get_emergency_summary
    rw [hmiss]
    rfl
  have hrhs : EmergencyAI.get_emergency_summary
      { ai_summaries := [], medical_records := [],
        emergency_logs := db.emergency_logs } false false hid =
      { success := false, health_id := hid,
        emergency_summary := EmergencyAI.noRecordsText,
        confidence := txt "Low", source_count := 0, cached := false } :=
    no_records_fallback _ false _ (by simp)
  exact ⟨hlhs.trans hrhs.symm, by rw [hlhs], by rw [hlhs], fun _ _ => rfl⟩

/-- C10, witness: patient MV1 DOES have a stored summary and record
    (`dbOneSummary`), but the cache read failed; with the records read failing
    too, the brief equals the no-records fallback an empty history produces. -/
theorem storage_failure_indistinguishable_witness :
    EmergencyAI.get_cached_summary dbOneSummary true (txt "MV1") = none ∧
    (EmergencyAI.get_emergency_summary dbOneSummary true true (txt "MV1") =
      EmergencyAI.get_emergency_summary
        { ai_summaries := [], medical_records := [],
          emergency_logs := dbOneSummary.emergency_logs } false false (txt "MV1") ∧
    (EmergencyAI.get_emergency_summary dbOneSummary true true
      (txt "MV1")).success = false ∧
    (EmergencyAI.get_emergency_summary dbOneSummary true true
      (txt "MV1")).source_count = 0 ∧
    (∀ db2 : EmergencyAI.DB, ∀ hid2 : Text,
      EmergencyAI.get_cached_summary db2 true hid2 = none)) :=
  ⟨by decide, storage_failure_indistinguishable _ true _ (by decide)⟩
